import Mathlib

/-!
Verification of the conversation state machine of the Housing.com voice-agent
backend: slot extraction (`aiConversation.js` / `extractRequirements`), the
completion/confirmation gate, the `/chat` turn pipeline of `server.js`, the
bounded conversation history of `memory.js`, and the sales-call end detection
of `salesAgent.js`.  JavaScript strings are modelled as `String`/`List Char`,
JS objects with optional string fields as `Option String` (JS truthiness:
`none` and `some ""` are falsy), and the regular-expression patterns of the
source are implemented as explicit leftmost-match scanners with the same
backtracking order as the JS engine (greedy quantifiers try longest first,
lazy ones shortest first, alternatives in listed order).
-/

namespace VoiceAgent

/-- ASCII lower-casing of one character, as `String.prototype.toLowerCase`
acts on ASCII letters. -/
def charLower (c : Char) : Char :=
  if 'A' ≤ c ∧ c ≤ 'Z' then Char.ofNat (c.toNat + 32) else c

/-- ASCII upper-casing of one character, as `String.prototype.toUpperCase`
acts on ASCII letters. -/
def charUpper (c : Char) : Char :=
  if 'a' ≤ c ∧ c ≤ 'z' then Char.ofNat (c.toNat - 32) else c

/-- `toLowerCase` over a character list. -/
def lowerChars (s : List Char) : List Char :=
  s.map charLower

/-- The whitespace class of the JS regex `\s` (restricted to the ASCII
whitespace characters that occur in this code base). -/
def isWsChar (c : Char) : Bool :=
  c == ' ' || c == '\t' || c == '\n' || c == '\r'

/-- The JS regex digit class `\d`. -/
def isDigitChar (c : Char) : Bool :=
  '0' ≤ c && c ≤ '9'

/-- The JS regex class `[a-zA-Z]`. -/
def isAlphaChar (c : Char) : Bool :=
  ('a' ≤ c && c ≤ 'z') || ('A' ≤ c && c ≤ 'Z')

/-- The JS regex class `[a-zA-Z\s]` used by the locality capture groups. -/
def isClassChar (c : Char) : Bool :=
  isAlphaChar c || isWsChar c

/-- Case-insensitive literal match at the head of the subject: the pattern is
given lower-cased, the subject characters are lowered before comparison (the
`/i` flag of the source's regexes). -/
def ciStarts : List Char → List Char → Bool
  | [], _ => true
  | _ :: _, [] => false
  | p :: ps, c :: cs => (p == charLower c) && ciStarts ps cs

/-- Exact literal match at the head of the subject. -/
def startsLit : List Char → List Char → Bool
  | [], _ => true
  | _ :: _, [] => false
  | p :: ps, c :: cs => (p == c) && startsLit ps cs

/-- `String.prototype.includes` on character lists (`hay.includes(pat)`);
the source always calls it on already lower-cased text with lower-case
literals, so a case-sensitive scan is exact. -/
def containsSub (hay pat : List Char) : Bool :=
  match hay with
  | [] => pat.isEmpty
  | _ :: t => startsLit pat hay || containsSub t pat

/-- JS `trim`: strip leading and trailing whitespace. -/
def trimChars (l : List Char) : List Char :=
  ((l.dropWhile isWsChar).reverse.dropWhile isWsChar).reverse

/-- The leading run of decimal digits. -/
def takeDigits (l : List Char) : List Char :=
  l.takeWhile isDigitChar

/-- `parseInt` on a non-empty all-digit capture (the only shape the source's
`match[1]` can take for the numeric patterns; JS float precision loss for
astronomically large inputs is not modelled). -/
def digitsToNat (l : List Char) : Nat :=
  l.foldl (fun n c => n * 10 + (c.toNat - 48)) 0

/-- Leftmost-match driver: JS regex matching tries every start position in
order and returns the first position where the pattern matches. -/
def scanFor {α : Type} (f : List Char → Option α) : List Char → Option α
  | [] => none
  | c :: t =>
    match f (c :: t) with
    | some r => some r
    | none => scanFor f t

/-- Match of `/(\d+)\s?(u1|u2|…)/` at the head of the subject, returning the
parsed first capture.  `\d+` is greedy; taking the maximal digit run is exact
here because every alternative unit starts with a letter and `\s?` needs a
whitespace character, so no shorter digit run can ever succeed where the
maximal one fails.  `\s?` is greedy: the one-whitespace branch is tried
before the empty branch (the two cannot both lead to a match, the units
starting with letters). -/
def numUnitAt (units : List (List Char)) (t : List Char) : Option Nat :=
  match t with
  | [] => none
  | c :: _ =>
    if isDigitChar c then
      let ds := takeDigits t
      let rest := t.drop ds.length
      let withWs : Option Nat :=
        match rest with
        | r :: rs => if isWsChar r && units.any (fun u => ciStarts u rs) then some (digitsToNat ds) else none
        | [] => none
      match withWs with
      | some n => some n
      | none => if units.any (fun u => ciStarts u rest) then some (digitsToNat ds) else none
    else none

/-- Leftmost match of `/(\d+)\s?(u1|u2|…)/` over the whole subject. -/
def matchNumUnit (units : List (List Char)) (s : List Char) : Option Nat :=
  scanFor (numUnitAt units) s

/-- The `.*?(\d+)` tail of a pattern such as `/budget.*?(\d+)/`: the lazy dot
(which does not match a newline) consumes as little as possible, so the
capture is the maximal digit run starting at the first digit reachable
without crossing a newline. -/
def lazyDotsDigits : List Char → Option Nat
  | [] => none
  | c :: t =>
    if isDigitChar c then some (digitsToNat (takeDigits (c :: t)))
    else if c == '\n' then none
    else lazyDotsDigits t

/-- Match of `/kw.*?(\d+)/` at the head of the subject. -/
def kwNumAt (kw : List Char) (t : List Char) : Option Nat :=
  if ciStarts kw t then lazyDotsDigits (t.drop kw.length) else none

/-- Leftmost match of `/kw.*?(\d+)/`. -/
def matchKwNum (kw : List Char) (s : List Char) : Option Nat :=
  scanFor (kwNumAt kw) s

/-- Match of `/around\s?(\d+)/` at the head of the subject (greedy `\s?`:
the whitespace branch is tried first; the two branches are mutually
exclusive since `\d` excludes whitespace). -/
def aroundNumAt (t : List Char) : Option Nat :=
  if ciStarts ("around".data) t then
    match t.drop 6 with
    | [] => none
    | c :: cs =>
      if isWsChar c then
        match cs with
        | d :: _ => if isDigitChar d then some (digitsToNat (takeDigits cs)) else none
        | [] => none
      else if isDigitChar c then some (digitsToNat (takeDigits (c :: cs)))
      else none
  else none

/-- Leftmost match of `/around\s?(\d+)/`. -/
def matchAroundNum (s : List Char) : Option Nat :=
  scanFor aroundNumAt s

/-- The budget extraction of `extractRequirements` (aiConversation.js lines
152-179): the six patterns are tried in source order, the first that matches
anywhere in the lower-cased message wins, and the canonical rendering is
chosen by the source's `pattern.source.includes(…)` checks — pattern 1
renders Lakh, 2 Crore, 3 K, 4 and 5 (no unit letters in their sources)
default to Lakh, 6 renders K. -/
def extractBudgetValue (lower : List Char) : Option String :=
  match matchNumUnit ["lakh".data, "lakhs".data, "l".data] lower with
  | some n => some (Nat.repr n ++ " Lakh")
  | none =>
  match matchNumUnit ["crore".data, "crores".data, "cr".data] lower with
  | some n => some (Nat.repr n ++ " Crore")
  | none =>
  match matchNumUnit ["k".data] lower with
  | some n => some (Nat.repr n ++ "K")
  | none =>
  match matchKwNum ("budget".data) lower with
  | some n => some (Nat.repr n ++ " Lakh")
  | none =>
  match matchAroundNum lower with
  | some n => some (Nat.repr n ++ " Lakh")
  | none =>
  match matchNumUnit ["thousand".data, "k".data] lower with
  | some n => some (Nat.repr n ++ "K")
  | none => none

/-- The seven city names of the compound location regexes
`(delhi|mumbai|bangalore|chennai|hyderabad|pune|kolkata)`, in the regex's
alternation order. -/
def bigSevenCities : List (List Char) :=
  ["delhi".data, "mumbai".data, "bangalore".data, "chennai".data,
   "hyderabad".data, "pune".data, "kolkata".data]

/-- Case-insensitive match of the city alternation at the head of the
subject: the first alternative (in listed order) that matches wins; returns
the length of the matched slice. -/
def cityAltAt (t : List Char) : Option Nat :=
  bigSevenCities.findSome? (fun c => if ciStarts c t then some c.length else none)

/-- Length of the leading whitespace run (the most `\s+` can consume). -/
def wsRunLen (t : List Char) : Nat :=
  (t.takeWhile isWsChar).length

/-- Match of `/in\s+([a-zA-Z\s]+?)\s+(big7)/i` at the head of the subject,
with the JS backtracking order: the first `\s+` greedy (longest first), the
capture group lazy (shortest first), the second `\s+` greedy, the city
alternation in listed order.  Returns (first capture, city capture), both as
slices of the original (un-lowered) subject. -/
def loc1At (t : List Char) : Option (List Char × List Char) :=
  if ciStarts ("in".data) t then
    let t2 := t.drop 2
    let w := wsRunLen t2
    (List.range w).findSome? (fun d =>
      let t3 := t2.drop (w - d)
      (List.range t3.length).findSome? (fun g0 =>
        let g := g0 + 1
        if (t3.take g).all isClassChar then
          let t4 := t3.drop g
          let w2 := wsRunLen t4
          (List.range w2).findSome? (fun d2 =>
            let t5 := t4.drop (w2 - d2)
            (cityAltAt t5).map (fun cl => (t3.take g, t5.take cl)))
        else none))
  else none

/-- Match of `/([a-zA-Z\s]+?)\s+(big7)/i` at the head of the subject (same
backtracking order, no leading literal). -/
def loc2At (t : List Char) : Option (List Char × List Char) :=
  (List.range t.length).findSome? (fun g0 =>
    let g := g0 + 1
    if (t.take g).all isClassChar then
      let t4 := t.drop g
      let w2 := wsRunLen t4
      (List.range w2).findSome? (fun d2 =>
        let t5 := t4.drop (w2 - d2)
        (cityAltAt t5).map (fun cl => (t.take g, t5.take cl)))
    else none)

/-- Match of `/in\s+(big7)/i` at the head of the subject. -/
def loc3At (t : List Char) : Option (List Char) :=
  if ciStarts ("in".data) t then
    let t2 := t.drop 2
    let w := wsRunLen t2
    (List.range w).findSome? (fun d =>
      let t3 := t2.drop (w - d)
      (cityAltAt t3).map (fun cl => t3.take cl))
  else none

/-- Result of the `locationPatterns` loop of `extractRequirements`
(aiConversation.js lines 185-207): the three patterns are tried in order and
the loop breaks at the first one that matches anywhere in the message;
a two-group match carries (locality, city), a one-group match just a city. -/
inductive LocMatch : Type
  | two (locality city : List Char)
  | one (city : List Char)

/-- First location pattern that matches the message, in source order. -/
def locFirst (msg : List Char) : Option LocMatch :=
  match scanFor loc1At msg with
  | some (l, c) => some (LocMatch.two l c)
  | none =>
  match scanFor loc2At msg with
  | some (l, c) => some (LocMatch.two l c)
  | none =>
  (scanFor loc3At msg).map LocMatch.one

/-- The `.*?([a-zA-Z\s]+)/` tail of the locality patterns: the lazy dot
(no newline) consumes as little as possible, the capture group is greedy,
so the capture is the maximal class run from the first class character
reachable without crossing a newline (a newline itself is in the class, via
`\s`). -/
def lazyDotsCapture : List Char → Option (List Char)
  | [] => none
  | c :: t =>
    if isClassChar c then some ((c :: t).takeWhile isClassChar)
    else if c == '\n' then none
    else lazyDotsCapture t

/-- Match of `/kw.*?([a-zA-Z\s]+)/i` at the head of the subject. -/
def kwCaptureAt (kw : List Char) (t : List Char) : Option (List Char) :=
  if ciStarts kw t then lazyDotsCapture (t.drop kw.length) else none

/-- Leftmost match of `/kw.*?([a-zA-Z\s]+)/i`. -/
def matchKwCapture (kw : List Char) (s : List Char) : Option (List Char) :=
  scanFor (kwCaptureAt kw) s

/-- The `indianCities` gazetteer of aiConversation.js line 182, in source
order (the fallback city scan takes the first list element that occurs as a
substring of the lower-cased message). -/
def indianCities : List String :=
  ["mumbai", "delhi", "bangalore", "chennai", "hyderabad", "pune", "kolkata",
   "ahmedabad", "jaipur", "lucknow", "kanpur", "nagpur", "indore", "thane",
   "bhopal", "visakhapatnam", "pimpri", "patna", "vadodara", "ghaziabad",
   "ludhiana", "agra", "nashik", "faridabad", "meerut", "rajkot", "kalyan",
   "vasai", "varanasi", "srinagar", "aurangabad", "dhanbad", "amritsar",
   "navi mumbai", "allahabad", "ranchi", "howrah", "coimbatore", "jabalpur",
   "gwalior", "vijayawada", "jodhpur", "madurai", "raipur", "kota",
   "guwahati", "chandigarh", "solapur", "hubballi", "tiruchirappalli",
   "bareilly", "mysore", "tiruppur", "gurgaon", "aligarh", "jalandhar",
   "bhubaneswar", "salem", "warangal", "mira", "bhiwandi", "saharanpur",
   "gorakhpur", "bikaner", "amravati", "noida", "jamshedpur", "bhilai",
   "cuttack", "firozabad", "kochi", "nellore", "bhavnagar", "dehradun",
   "durgapur", "asansol", "rourkela", "nanded", "kolhapur", "ajmer", "akola",
   "gulbarga", "jamnagar", "ujjain", "loni", "siliguri", "jhansi",
   "ulhasnagar", "jammu", "sangli", "mangalore", "erode", "belgaum",
   "ambattur", "tirunelveli", "malegaon", "gaya", "jalgaon", "udaipur",
   "maheshtala"]

/-- The requirements record of a session.  Slot values are `Option String`
(`none` for a JS `undefined` field); the three flags are JS booleans that
start out `undefined`, which behaves as `false` everywhere they are read. -/
structure Requirements where
  propertyType : Option String := none
  budget : Option String := none
  city : Option String := none
  locality : Option String := none
  bhk : Option String := none
  confirmed : Bool := false
  waitingForConfirmation : Bool := false
  conversationStarted : Bool := false
deriving DecidableEq

/-- JS truthiness of an optional string field: `undefined` and `""` are
falsy, every other string truthy. -/
def truthy : Option String → Bool
  | none => false
  | some s => s != ""

/-- `city.charAt(0).toUpperCase() + city.slice(1)`. -/
def capitalizeWord (s : String) : String :=
  match s.data with
  | [] => ""
  | c :: t => String.mk (charUpper c :: t)

/-- The fallback city scan of `extractRequirements` (lines 210-217): first
gazetteer entry contained in the lower-cased message, proper-cased. -/
def cityScan (lower : List Char) : Option String :=
  indianCities.findSome? (fun c => if containsSub lower c.data then some (capitalizeWord c) else none)

/-- The compound-location update (lines 184-207): apply the first matching
location pattern; a (locality, city) match sets each part only under its own
guard (`!updated.locality && locality`, resp. `!updated.city` plus gazetteer
membership of the lower-cased city); a city-only match sets city under the
same guard.  No match leaves the record unchanged. -/
def applyLocationUpdate (msg : List Char) (r : Requirements) : Requirements :=
  match locFirst msg with
  | some (LocMatch.two l c) =>
    let locality := String.mk (trimChars l)
    let city := String.mk (trimChars c)
    let r1 :=
      if !(truthy r.locality) && locality != "" then { r with locality := some locality } else r
    if !(truthy r1.city) && indianCities.contains (String.mk (lowerChars city.data)) then
      { r1 with city := some city }
    else r1
  | some (LocMatch.one c) =>
    let city := String.mk (trimChars c)
    if !(truthy r.city) && indianCities.contains (String.mk (lowerChars city.data)) then
      { r with city := some city }
    else r
  | none => r

/-- The unconditional locality-pattern update (lines 228-240): the three
patterns locality/area/near are tried in order against the original-case
message and the first match overwrites `locality` with its trimmed capture
— this step carries no "slot already set" guard in the source. -/
def applyLocalityUpdate (msg : List Char) (r : Requirements) : Requirements :=
  match matchKwCapture ("locality".data) msg with
  | some cap => { r with locality := some (String.mk (trimChars cap)) }
  | none =>
  match matchKwCapture ("area".data) msg with
  | some cap => { r with locality := some (String.mk (trimChars cap)) }
  | none =>
  match matchKwCapture ("near".data) msg with
  | some cap => { r with locality := some (String.mk (trimChars cap)) }
  | none => r

/-- The property-type update (lines 144-150), guarded by the slot being
falsy. -/
def applyPropertyTypeUpdate (lower : List Char) (r : Requirements) : Requirements :=
  if !(truthy r.propertyType) then
    if containsSub lower ("buy".data) || containsSub lower ("purchase".data)
        || containsSub lower ("buying".data) then
      { r with propertyType := some "buy" }
    else if containsSub lower ("rent".data) || containsSub lower ("rental".data)
        || containsSub lower ("renting".data) then
      { r with propertyType := some "rent" }
    else r
  else r

/-- The budget update (lines 152-179), guarded by the slot being falsy. -/
def applyBudgetUpdate (lower : List Char) (r : Requirements) : Requirements :=
  if !(truthy r.budget) then
    match extractBudgetValue lower with
    | some b => { r with budget := some b }
    | none => r
  else r

/-- The fallback gazetteer scan (lines 210-217), guarded by `city` falsy. -/
def applyCityFallback (lower : List Char) (r : Requirements) : Requirements :=
  if !(truthy r.city) then
    match cityScan lower with
    | some c => { r with city := some c }
    | none => r
  else r

/-- The BHK update (lines 219-225), guarded by the slot being falsy. -/
def applyBhkUpdate (lower : List Char) (r : Requirements) : Requirements :=
  if !(truthy r.bhk) then
    match matchNumUnit ["bhk".data, "bedroom".data] lower with
    | some n => { r with bhk := some (Nat.repr n ++ "BHK") }
    | none => r
  else r

/-- `extractRequirements(userMessage, currentRequirements)` of
aiConversation.js lines 136-243: mark the conversation started, then run the
slot updates in source order — property type, budget, compound location,
gazetteer city fallback, BHK, and finally the unguarded locality patterns. -/
def extractRequirements (userMessage : String) (current : Requirements) : Requirements :=
  let lower := lowerChars userMessage.data
  applyLocalityUpdate userMessage.data
    (applyBhkUpdate lower
      (applyCityFallback lower
        (applyLocationUpdate userMessage.data
          (applyBudgetUpdate lower
            (applyPropertyTypeUpdate lower
              { current with conversationStarted := true })))))

/-- `shouldSearchProperties` (aiConversation.js lines 245-251): complete
requirements AND `confirmed === true`. -/
def shouldSearchProperties (r : Requirements) : Bool :=
  truthy r.propertyType && truthy r.city && truthy r.bhk && r.confirmed

/-- `hasCompleteRequirements` (lines 253-258): propertyType, city and bhk
all truthy. -/
def hasCompleteRequirements (r : Requirements) : Bool :=
  truthy r.propertyType && truthy r.city && truthy r.bhk

/-- `generateSearchQuery` (lines 260-274): property type, bhk, locality,
city, budget concatenated in that fixed order (unset slots omitted) plus
the fixed suffix. -/
def generateSearchQuery (r : Requirements) : String :=
  let parts : List String :=
    (if r.propertyType == some "buy" then ["buy"] else []) ++
    (if r.propertyType == some "rent" then ["rent"] else []) ++
    (if truthy r.bhk then [r.bhk.getD ""] else []) ++
    (if truthy r.locality then [r.locality.getD ""] else []) ++
    (if truthy r.city then [r.city.getD ""] else []) ++
    (if truthy r.budget then [r.budget.getD ""] else [])
  String.intercalate " " parts ++ " site:housing.com"

/-- `generateRequirementsSummary` (lines 125-134). -/
def generateRequirementsSummary (r : Requirements) : String :=
  let parts : List String :=
    (if truthy r.propertyType then
      [if r.propertyType == some "buy" then "buying" else "renting"] else []) ++
    (if truthy r.bhk then ["a " ++ r.bhk.getD ""] else []) ++
    (if truthy r.locality && truthy r.city then
      ["in " ++ r.locality.getD "" ++ ", " ++ r.city.getD ""]
     else if truthy r.city then ["in " ++ r.city.getD ""] else []) ++
    (if truthy r.budget then ["with budget " ++ r.budget.getD ""] else [])
  String.intercalate " " parts

/-- The affirmative cue scan shared by server.js lines 60-62 and the
fallback responder lines 80-82: yes / ok / sure / proceed / search / find. -/
def affirmativeCue (lower : List Char) : Bool :=
  containsSub lower ("yes".data) || containsSub lower ("ok".data) ||
  containsSub lower ("sure".data) || containsSub lower ("proceed".data) ||
  containsSub lower ("search".data) || containsSub lower ("find".data)

/-- The revision cue scan shared by server.js lines 68-70 and the fallback
responder lines 87-89: no / change / modify / different / wrong. -/
def revisionCue (lower : List Char) : Bool :=
  containsSub lower ("no".data) || containsSub lower ("change".data) ||
  containsSub lower ("modify".data) || containsSub lower ("different".data) ||
  containsSub lower ("wrong".data)

/-- `getFallbackResponse` (aiConversation.js lines 71-123): the
deterministic rule-based responder, which `generateResponse` uses whenever
no OpenAI key is configured or the completion call fails.  The embedding
models this deterministic path. -/
def getFallbackResponse (userMessage : String) (req : Requirements) : String :=
  let lower := lowerChars userMessage.data
  if !req.conversationStarted then
    "Hello! I'm Sarah from Housing.com, your personal property assistant. I'm here to help you find the perfect home. To get started, could you tell me what type of property you're looking for - are you planning to buy or rent?"
  else if req.waitingForConfirmation && affirmativeCue lower then
    "Perfect! Let me search for properties matching your criteria. I'll find the best options for you."
  else if req.waitingForConfirmation && revisionCue lower then
    "No problem! What would you like to change in your requirements? Please tell me your updated preferences."
  else if !(truthy req.propertyType) then
    if containsSub lower ("buy".data) || containsSub lower ("purchase".data) then
      "Great! You're looking to buy a property. What's your budget range, and which city are you considering?"
    else if containsSub lower ("rent".data) || containsSub lower ("rental".data) then
      "Perfect! You're looking for a rental property. What's your monthly budget, and which city would you prefer?"
    else
      "I'd be happy to help! Are you looking to buy or rent a property?"
  else if !(truthy req.city) then
    "Which city are you looking in? And do you have any specific locality preferences?"
  else if !(truthy req.bhk) then
    "What type of configuration are you looking for - 1BHK, 2BHK, 3BHK, or something else?"
  else if !(truthy req.budget) then
    "Could you share your budget range? This will help me find properties that fit your financial comfort zone."
  else if hasCompleteRequirements req && !req.confirmed && !req.waitingForConfirmation then
    "Let me confirm your requirements: " ++ generateRequirementsSummary req ++ ". Should I search for properties matching these criteria?"
  else
    "I understand. Could you tell me more about your specific requirements so I can help you better?"

/-- One entry of `conversationHistory` (memory.js stores role, content and a
wall-clock timestamp; the timestamp plays no part in any logic modelled
here and is omitted). -/
structure HistEntry where
  role : String
  content : String
deriving DecidableEq

/-- The append-then-cap of `addToConversationHistory` (memory.js lines
39-54): push the entry, and when the length exceeds 10 keep only the last
10 (`slice(-10)`), dropping the oldest first. -/
def pushHistory (h : List HistEntry) (e : HistEntry) : List HistEntry :=
  let h2 := h ++ [e]
  if h2.length > 10 then h2.drop (h2.length - 10) else h2

/-- A session record (memory.js `get` default): the fields the chat and
sales-chat flows touch. -/
structure Session where
  requirements : Requirements := {}
  conversationHistory : List HistEntry := []
  currentState : String := "introduction"
  propertySearchHistory : List (String × List String) := []
  userFeedback : List (String × String × String) := []

/-- `hasNewRequirements` of the `/chat` handler (server.js lines 85-90):
any of the five tracked slots differs between the pre-extraction snapshot
and the updated record (the `JSON.stringify` comparison distinguishes an
absent field from any string value, as `Option.decEq` does). -/
def hasNewRequirements (cur upd : Requirements) : Bool :=
  cur.propertyType != upd.propertyType || cur.city != upd.city ||
  cur.bhk != upd.bhk || cur.budget != upd.budget || cur.locality != upd.locality

/-- Blocks (a)-(c) of the `/chat` confirmation logic (server.js lines
57-81): affirmative cue consumes the pending confirmation, revision cue
clears both flags, and completeness with neither flag set raises
`waitingForConfirmation`. -/
def applyCues (lower : List Char) (upd : Requirements) : Requirements :=
  let u1 :=
    if upd.waitingForConfirmation && affirmativeCue lower then
      { upd with confirmed := true, waitingForConfirmation := false }
    else upd
  let u2 :=
    if u1.waitingForConfirmation && revisionCue lower then
      { u1 with confirmed := false, waitingForConfirmation := false }
    else u1
  if hasCompleteRequirements u2 && !u2.confirmed && !u2.waitingForConfirmation then
    { u2 with waitingForConfirmation := true }
  else u2

/-- Block (d) of the `/chat` confirmation logic (server.js lines 84-101):
while waiting for confirmation, any detected slot change against the
pre-extraction snapshot resets both flags and immediately re-checks
completeness. -/
def applyChangeDetection (cur u3 : Requirements) : Requirements :=
  if u3.waitingForConfirmation && hasNewRequirements cur u3 then
    let u4 := { u3 with confirmed := false, waitingForConfirmation := false }
    if hasCompleteRequirements u4 then { u4 with waitingForConfirmation := true } else u4
  else u3

/-- The whole turn-level flag transition of the `/chat` handler. -/
def applyConfirmationLogic (lower : List Char) (cur upd : Requirements) : Requirements :=
  applyChangeDetection cur (applyCues lower upd)

/-- What one `/chat` turn reports back (the fields of the JSON reply that
the claims concern, plus the list of queries sent to the paid search API
this turn). -/
structure ChatReply where
  replyText : String
  links : List String
  searchPerformed : Bool
  searchQueries : List String
deriving DecidableEq

/-- One `/chat` turn on one session (server.js lines 37-155), in source
order: append the user message, extract requirements from the
pre-extraction snapshot, run the confirmation logic, persist (the
`updateRequirements` spread-merge equals the updated record, which carries
every field of the snapshot), generate the deterministic fallback reply,
append it, and invoke the external search — represented by `searchFn` —
exactly when the gate and the reply-keyword check both pass, logging the
query in `propertySearchHistory`.  The OpenAI-backed reply path is external
nondeterminism; the embedding models the deterministic
fallback path (`generateResponse` without an API key). -/
def chatTurn (searchFn : String → List String) (text : String) (s : Session) :
    Session × ChatReply :=
  let s1 := { s with conversationHistory := pushHistory s.conversationHistory ⟨"user", text⟩ }
  let currentRequirements := s1.requirements
  let extracted := extractRequirements text currentRequirements
  let lower := lowerChars text.data
  let updated := applyConfirmationLogic lower currentRequirements extracted
  let s2 := { s1 with requirements := updated }
  let aiResponse := getFallbackResponse text updated
  let s3 := { s2 with conversationHistory := pushHistory s2.conversationHistory ⟨"assistant", aiResponse⟩ }
  let shouldSearch := shouldSearchProperties updated
  let respLower := lowerChars aiResponse.data
  let searchKeywords :=
    containsSub respLower ("search".data) || containsSub respLower ("find".data) ||
    containsSub respLower ("looking".data) || containsSub respLower ("properties".data)
  if shouldSearch && searchKeywords then
    let q := generateSearchQuery updated
    let links := searchFn q
    let s4 := { s3 with
      propertySearchHistory := s3.propertySearchHistory ++ [(q, links)],
      currentState := "presenting_results" }
    (s4, { replyText := aiResponse, links := links.take 5, searchPerformed := true,
           searchQueries := [q] })
  else
    (s3, { replyText := aiResponse, links := [], searchPerformed := false,
           searchQueries := [] })

/-- JS falsiness of a request body field that should be a string: absent or
empty. -/
def falsyField : Option String → Bool
  | none => true
  | some s => s == ""

/-- The HTTP-level outcome of a `/chat` request. -/
structure ChatHttpResult where
  status : Nat
  body : Option ChatReply

/-- The `/chat` endpoint over the session store (server.js lines 37-155):
the malformed-input check `if (!sessionId || !text)` rejects with 400
before any store access; otherwise the turn runs on the (lazily created)
session and the store is updated at that one key. -/
def chatEndpoint (searchFn : String → List String) (sessionId text : Option String)
    (store : String → Option Session) :
    ChatHttpResult × (String → Option Session) :=
  if falsyField sessionId || falsyField text then
    ({ status := 400, body := none }, store)
  else
    let sid := sessionId.getD ""
    let s := (store sid).getD {}
    let (s2, reply) := chatTurn searchFn (text.getD "") s
    ({ status := 200, body := some reply }, fun k => if k == sid then some s2 else store k)

/-- Property details passed to the sales agent (salesAgent.js reads these
fields; each is an optional string, `ptype` standing for the JS field
`type`). -/
structure PropertyInfo where
  title : Option String := none
  location : Option String := none
  price : Option String := none
  bhk : Option String := none
  amenities : Option String := none
  ptype : Option String := none

/-- Customer details passed to the sales agent. -/
structure CustomerInfo where
  name : Option String := none
  phone : Option String := none

/-- JS `x || 'd'` on an optional string field. -/
def orDefault (o : Option String) (d : String) : String :=
  if truthy o then o.getD d else d

/-- JS string concatenation with a possibly-undefined value
(`'priced at ' + propertyInfo.price` renders `undefined` textually). -/
def jsShow (o : Option String) : String :=
  o.getD "undefined"

/-- The terminal phrase list of `shouldEndCall` (salesAgent.js lines
195-203), in source order. -/
def endIndicators : List String :=
  ["thank you for your time", "have a wonderful day", "have a great day",
   "call you back", "send you confirmation", "not interested", "already bought"]

/-- `shouldEndCall(response, conversationHistory)` (salesAgent.js lines
194-207): true exactly when the lower-cased reply contains one of the
terminal phrases (the history argument is never read by the source). -/
def shouldEndCall (response : String) : Bool :=
  endIndicators.any (fun ind => containsSub (lowerChars response.data) ind.data)

/-- The result record of a sales-agent turn. -/
structure SalesReply where
  response : String
  callEnded : Bool
  summary : Option String
deriving DecidableEq

/-- `getFallbackResponse` of salesAgent.js (lines 96-192): the
deterministic no-API-key reply path of the sales agent; branch order as in
the source, with the sequential reassignments of `reason` modelled by
nested conditionals (the last matching keyword wins). -/
def getSalesFallback (userMessage : String) (history : List HistEntry)
    (p : PropertyInfo) (c : CustomerInfo) : SalesReply :=
  let lower := lowerChars userMessage.data
  let customerName := orDefault c.name "there"
  if history.length ≤ 1 then
    { response := "Hello " ++ customerName ++ "! This is Sarah from Housing.com. I hope you're doing well. I'm calling regarding the " ++ orDefault p.title "property" ++ " you recently enquired about. Is this a good time to talk?",
      callEnded := false, summary := none }
  else if containsSub lower ("no".data) || containsSub lower ("busy".data)
      || containsSub lower ("not a good time".data) then
    if history.any (fun m => containsSub m.content.data ("2 minutes".data)) then
      { response := "I completely understand. When would be a convenient time for me to call you back? Would tomorrow evening around 6 PM work for you?",
        callEnded := false, summary := none }
    else
      { response := "I understand you're busy. Could I take just 2 minutes of your time to share some exciting updates about this property?",
        callEnded := false, summary := none }
  else if containsSub lower ("yes".data) || containsSub lower ("sure".data)
      || containsSub lower ("ok".data) || containsSub lower ("good time".data) then
    if history.any (fun m => containsSub m.content.data ("good time".data)) then
      { response := "Great! I wanted to discuss the " ++ orDefault p.title "property" ++ " in " ++ orDefault p.location "prime location" ++ ". Are you still interested in learning more about this " ++ orDefault p.price "well-priced" ++ " property?",
        callEnded := false, summary := none }
    else
      { response := "Wonderful! Thank you for your time. I'm calling about the property you showed interest in. Are you still looking for a property in this area?",
        callEnded := false, summary := none }
  else if containsSub lower ("interested".data) || containsSub lower ("tell me more".data)
      || containsSub lower ("details".data) then
    { response := "Excellent! This " ++ orDefault p.bhk "beautiful" ++ " property offers " ++ orDefault p.amenities "great amenities" ++ " and is " ++ (if p.ptype == some "Sale" then "priced at " ++ jsShow p.price else "available for rent at " ++ jsShow p.price) ++ ". Would you be interested in scheduling a site visit this weekend?",
      callEnded := false, summary := none }
  else if containsSub lower ("visit".data) || containsSub lower ("see".data)
      || containsSub lower ("weekend".data) || containsSub lower ("saturday".data)
      || containsSub lower ("sunday".data) then
    { response := "Perfect! I can arrange a site visit for you. Would Saturday afternoon around 3 PM work for you, or would you prefer Sunday morning? I'll also share the exact location and my contact details.",
      callEnded := false, summary := none }
  else if containsSub lower ("not interested".data) || containsSub lower ("already bought".data)
      || containsSub lower ("found".data) || containsSub lower ("don't need".data) then
    let reason :=
      if containsSub lower ("timing".data) then "Timing not right"
      else if containsSub lower ("already".data) then "Already purchased elsewhere"
      else if containsSub lower ("location".data) then "Location not suitable"
      else if containsSub lower ("budget".data) then "Budget constraints"
      else "Customer not interested"
    { response := "I completely understand. Thank you for taking the time to speak with me today. If your situation changes in the future, please don't hesitate to reach out. Have a wonderful day!",
      callEnded := true,
      summary := some ("Call completed. Reason: " ++ reason ++ ". Customer was polite but not interested at this time.") }
  else if containsSub lower ("confirm".data) || containsSub lower ("sounds good".data)
      || containsSub lower ("perfect".data) then
    { response := "Wonderful! I'll send you a confirmation message with all the details shortly. Thank you for your time today, and I look forward to showing you this beautiful property. Have a great day!",
      callEnded := true,
      summary := some "Site visit scheduled successfully. Customer confirmed availability and expressed genuine interest." }
  else
    { response := "I understand. Could you please share what specific aspect you'd like to know more about? I'm here to help with any questions about the property, pricing, or scheduling a visit.",
      callEnded := false, summary := none }

/-- The HTTP-level outcome of a `/sales-chat` request. -/
structure SalesHttpResult where
  status : Nat
  body : Option SalesReply

/-- The `/sales-chat` endpoint (server.js lines 257-304): the same
malformed-input rejection as `/chat` before any store access, then append
the customer message, generate the (fallback-path) sales reply over the
history including that message, and append the reply. -/
def salesChatEndpoint (sessionId text : Option String) (p : PropertyInfo)
    (c : CustomerInfo) (store : String → Option Session) :
    SalesHttpResult × (String → Option Session) :=
  if falsyField sessionId || falsyField text then
    ({ status := 400, body := none }, store)
  else
    let sid := sessionId.getD ""
    let s := (store sid).getD {}
    let s1 := { s with conversationHistory := pushHistory s.conversationHistory ⟨"user", text.getD ""⟩ }
    let agentResult := getSalesFallback (text.getD "") s1.conversationHistory p c
    let s2 := { s1 with conversationHistory := pushHistory s1.conversationHistory ⟨"assistant", agentResult.response⟩ }
    ({ status := 200, body := some agentResult }, fun k => if k == sid then some s2 else store k)

/-- A search collaborator returning no links: the claims below concern the
query sent and the fact of invocation, which `chatTurn` records
independently of the collaborator's answer. -/
def noSearchResults : String → List String :=
  fun _ => []

/-- The requirements record of the revision scenario: buy, Pune, 2BHK,
awaiting confirmation. -/
def c2start : Requirements :=
  { propertyType := some "buy", city := some "Pune", bhk := some "2BHK",
    waitingForConfirmation := true }

/-- The post-cue requirements of the revision scenario for the utterance
mentioning Mumbai (the record entering the change-detection block). -/
def c2reqMumbai : Requirements :=
  applyCues (lowerChars "Mumbai".data) (extractRequirements "Mumbai" c2start)

/-- The post-cue requirements of the revision scenario for an utterance that
overwrites the locality slot. -/
def c2reqNear : Requirements :=
  applyCues (lowerChars "near Andheri".data) (extractRequirements "near Andheri" c2start)

/-- A requirements record with the locality slot already filled. -/
def c3start : Requirements :=
  { locality := some "Andheri" }

/-- Turn 1 of the end-to-end scenario on a fresh session. -/
def c4turn1 : Session × ChatReply :=
  chatTurn noSearchResults "I want to buy" {}

/-- Turn 2 of the end-to-end scenario. -/
def c4turn2 : Session × ChatReply :=
  chatTurn noSearchResults "Mumbai" c4turn1.1

/-- Turn 3 of the end-to-end scenario. -/
def c4turn3 : Session × ChatReply :=
  chatTurn noSearchResults "2BHK" c4turn2.1

/-- Turn 4 of the end-to-end scenario. -/
def c4turn4 : Session × ChatReply :=
  chatTurn noSearchResults "yes" c4turn3.1

/-- The budget prompt of the rule-based responder (aiConversation.js line
113). -/
def budgetPrompt : String :=
  "Could you share your budget range? This will help me find properties that fit your financial comfort zone."

/-- A two-entry history standing for a sales call past its introduction. -/
def salesIntroHistory : List HistEntry :=
  [⟨"user", "Hello"⟩, ⟨"assistant", "Hi! Is this a good time to talk?"⟩]

/-- The closing reply of the sales agent's not-interested branch
(salesAgent.js line 171). -/
def terminalSalesReply : String :=
  "I completely understand. Thank you for taking the time to speak with me today. If your situation changes in the future, please don't hesitate to reach out. Have a wonderful day!"

set_option maxRecDepth 100000

theorem applyPropertyTypeUpdate_keeps (l : List Char) (r : Requirements) :
    (applyPropertyTypeUpdate l r).budget = r.budget ∧
    (applyPropertyTypeUpdate l r).city = r.city ∧
    (applyPropertyTypeUpdate l r).bhk = r.bhk ∧
    (applyPropertyTypeUpdate l r).locality = r.locality := by
  unfold applyPropertyTypeUpdate
  repeat' split
  all_goals exact ⟨rfl, rfl, rfl, rfl⟩

theorem applyPropertyTypeUpdate_truthy (l : List Char) (r : Requirements)
    (h : truthy r.propertyType = true) :
    (applyPropertyTypeUpdate l r).propertyType = r.propertyType := by
  unfold applyPropertyTypeUpdate
  rw [h]
  rfl

theorem applyBudgetUpdate_keeps (l : List Char) (r : Requirements) :
    (applyBudgetUpdate l r).propertyType = r.propertyType ∧
    (applyBudgetUpdate l r).city = r.city ∧
    (applyBudgetUpdate l r).bhk = r.bhk ∧
    (applyBudgetUpdate l r).locality = r.locality := by
  unfold applyBudgetUpdate
  repeat' split
  all_goals exact ⟨rfl, rfl, rfl, rfl⟩

theorem applyBudgetUpdate_truthy (l : List Char) (r : Requirements)
    (h : truthy r.budget = true) :
    (applyBudgetUpdate l r).budget = r.budget := by
  unfold applyBudgetUpdate
  rw [h]
  rfl

theorem applyCityFallback_keeps (l : List Char) (r : Requirements) :
    (applyCityFallback l r).propertyType = r.propertyType ∧
    (applyCityFallback l r).budget = r.budget ∧
    (applyCityFallback l r).bhk = r.bhk ∧
    (applyCityFallback l r).locality = r.locality := by
  unfold applyCityFallback
  repeat' split
  all_goals exact ⟨rfl, rfl, rfl, rfl⟩

theorem applyCityFallback_truthy (l : List Char) (r : Requirements)
    (h : truthy r.city = true) :
    (applyCityFallback l r).city = r.city := by
  unfold applyCityFallback
  rw [h]
  rfl

theorem applyBhkUpdate_keeps (l : List Char) (r : Requirements) :
    (applyBhkUpdate l r).propertyType = r.propertyType ∧
    (applyBhkUpdate l r).budget = r.budget ∧
    (applyBhkUpdate l r).city = r.city ∧
    (applyBhkUpdate l r).locality = r.locality := by
  unfold applyBhkUpdate
  repeat' split
  all_goals exact ⟨rfl, rfl, rfl, rfl⟩

theorem applyBhkUpdate_truthy (l : List Char) (r : Requirements)
    (h : truthy r.bhk = true) :
    (applyBhkUpdate l r).bhk = r.bhk := by
  unfold applyBhkUpdate
  rw [h]
  rfl

theorem applyLocationUpdate_keeps (msg : List Char) (r : Requirements) :
    (applyLocationUpdate msg r).propertyType = r.propertyType ∧
    (applyLocationUpdate msg r).budget = r.budget ∧
    (applyLocationUpdate msg r).bhk = r.bhk := by
  unfold applyLocationUpdate
  dsimp only
  repeat' split
  all_goals exact ⟨rfl, rfl, rfl⟩

theorem applyLocationUpdate_city (msg : List Char) (r : Requirements)
    (h : truthy r.city = true) : (applyLocationUpdate msg r).city = r.city := by
  unfold applyLocationUpdate
  dsimp only
  repeat' split
  all_goals simp_all

theorem applyLocationUpdate_locality (msg : List Char) (r : Requirements)
    (h : truthy r.locality = true) :
    (applyLocationUpdate msg r).locality = r.locality := by
  unfold applyLocationUpdate
  dsimp only
  repeat' split
  all_goals simp_all

theorem applyLocalityUpdate_keeps (msg : List Char) (r : Requirements) :
    (applyLocalityUpdate msg r).propertyType = r.propertyType ∧
    (applyLocalityUpdate msg r).budget = r.budget ∧
    (applyLocalityUpdate msg r).city = r.city ∧
    (applyLocalityUpdate msg r).bhk = r.bhk := by
  unfold applyLocalityUpdate
  repeat' split
  all_goals exact ⟨rfl, rfl, rfl, rfl⟩

theorem applyConfirmationLogic_slots (lower : List Char) (cur u : Requirements) :
    (applyConfirmationLogic lower cur u).propertyType = u.propertyType ∧
    (applyConfirmationLogic lower cur u).city = u.city ∧
    (applyConfirmationLogic lower cur u).bhk = u.bhk ∧
    (applyConfirmationLogic lower cur u).budget = u.budget ∧
    (applyConfirmationLogic lower cur u).locality = u.locality := by
  unfold applyConfirmationLogic applyChangeDetection applyCues
  dsimp only
  repeat' split
  all_goals refine ⟨rfl, rfl, rfl, rfl, rfl⟩

theorem extract_keeps_propertyType (u : String) (r : Requirements)
    (h : truthy r.propertyType = true) :
    (extractRequirements u r).propertyType = r.propertyType := by
  unfold extractRequirements
  dsimp only
  set l := lowerChars u.data with hl
  set R0 : Requirements := { r with conversationStarted := true } with hR0
  have hA : (applyPropertyTypeUpdate l R0).propertyType = r.propertyType := by
    rw [applyPropertyTypeUpdate_truthy l R0 (by rw [hR0]; exact h), hR0]
  rw [(applyLocalityUpdate_keeps _ _).1, (applyBhkUpdate_keeps _ _).1,
      (applyCityFallback_keeps _ _).1, (applyLocationUpdate_keeps _ _).1,
      (applyBudgetUpdate_keeps _ _).1, hA]

theorem extract_keeps_budget (u : String) (r : Requirements)
    (h : truthy r.budget = true) :
    (extractRequirements u r).budget = r.budget := by
  unfold extractRequirements
  dsimp only
  set l := lowerChars u.data with hl
  set R0 : Requirements := { r with conversationStarted := true } with hR0
  set A := applyPropertyTypeUpdate l R0 with hA
  have hAb : A.budget = r.budget := by
    rw [hA, (applyPropertyTypeUpdate_keeps _ _).1, hR0]
  have hBb : (applyBudgetUpdate l A).budget = r.budget := by
    rw [applyBudgetUpdate_truthy l A (by rw [hAb]; exact h), hAb]
  rw [(applyLocalityUpdate_keeps _ _).2.1, (applyBhkUpdate_keeps _ _).2.1,
      (applyCityFallback_keeps _ _).2.1, (applyLocationUpdate_keeps _ _).2.1, hBb]

theorem extract_keeps_city (u : String) (r : Requirements)
    (h : truthy r.city = true) :
    (extractRequirements u r).city = r.city := by
  unfold extractRequirements
  dsimp only
  set l := lowerChars u.data with hl
  set R0 : Requirements := { r with conversationStarted := true } with hR0
  set A := applyPropertyTypeUpdate l R0 with hA
  set B := applyBudgetUpdate l A with hB
  set C := applyLocationUpdate u.data B with hC
  set D := applyCityFallback l C with hD
  have hAc : A.city = r.city := by rw [hA, (applyPropertyTypeUpdate_keeps _ _).2.1, hR0]
  have hBc : B.city = r.city := by rw [hB, (applyBudgetUpdate_keeps _ _).2.1, hAc]
  have hCc : C.city = r.city := by
    rw [hC, applyLocationUpdate_city _ _ (by rw [hBc]; exact h), hBc]
  have hDc : D.city = r.city := by
    rw [hD, applyCityFallback_truthy _ _ (by rw [hCc]; exact h), hCc]
  rw [(applyLocalityUpdate_keeps _ _).2.2.1, (applyBhkUpdate_keeps _ _).2.2.1, hDc]

theorem extract_keeps_bhk (u : String) (r : Requirements)
    (h : truthy r.bhk = true) :
    (extractRequirements u r).bhk = r.bhk := by
  unfold extractRequirements
  dsimp only
  set l := lowerChars u.data with hl
  set R0 : Requirements := { r with conversationStarted := true } with hR0
  set A := applyPropertyTypeUpdate l R0 with hA
  set B := applyBudgetUpdate l A with hB
  set C := applyLocationUpdate u.data B with hC
  set D := applyCityFallback l C with hD
  have hAb : A.bhk = r.bhk := by rw [hA, (applyPropertyTypeUpdate_keeps _ _).2.2.1, hR0]
  have hBb : B.bhk = r.bhk := by rw [hB, (applyBudgetUpdate_keeps _ _).2.2.1, hAb]
  have hCb : C.bhk = r.bhk := by rw [hC, (applyLocationUpdate_keeps _ _).2.2, hBb]
  have hDb : D.bhk = r.bhk := by rw [hD, (applyCityFallback_keeps _ _).2.2.1, hCb]
  rw [(applyLocalityUpdate_keeps _ _).2.2.2,
      applyBhkUpdate_truthy l D (by rw [hDb]; exact h), hDb]

theorem applyLocationUpdate_none (msg : List Char) (r : Requirements)
    (h : locFirst msg = none) : applyLocationUpdate msg r = r := by
  unfold applyLocationUpdate
  rw [h]

theorem applyLocalityUpdate_none (msg : List Char) (r : Requirements)
    (h1 : matchKwCapture ("locality".data) msg = none)
    (h2 : matchKwCapture ("area".data) msg = none)
    (h3 : matchKwCapture ("near".data) msg = none) :
    applyLocalityUpdate msg r = r := by
  unfold applyLocalityUpdate
  rw [h1, h2, h3]

theorem extract_keeps_locality_of_no_match (u : String) (r : Requirements)
    (h0 : locFirst u.data = none)
    (h1 : matchKwCapture ("locality".data) u.data = none)
    (h2 : matchKwCapture ("area".data) u.data = none)
    (h3 : matchKwCapture ("near".data) u.data = none) :
    (extractRequirements u r).locality = r.locality := by
  unfold extractRequirements
  dsimp only
  rw [applyLocalityUpdate_none _ _ h1 h2 h3, (applyBhkUpdate_keeps _ _).2.2.2,
      (applyCityFallback_keeps _ _).2.2.2, applyLocationUpdate_none _ _ h0,
      (applyBudgetUpdate_keeps _ _).2.2.2, (applyPropertyTypeUpdate_keeps _ _).2.2.2]

theorem chatTurn_requirements (f : String → List String) (u : String) (s : Session) :
    (chatTurn f u s).1.requirements =
      applyConfirmationLogic (lowerChars u.data) s.requirements
        (extractRequirements u s.requirements) := by
  unfold chatTurn
  dsimp only
  split <;> rfl

theorem chatTurn_keeps_propertyType (f : String → List String) (u : String) (s : Session)
    (h : truthy s.requirements.propertyType = true) :
    (chatTurn f u s).1.requirements.propertyType = s.requirements.propertyType := by
  rw [chatTurn_requirements, (applyConfirmationLogic_slots (lowerChars u.data) s.requirements (extractRequirements u s.requirements)).1,
      extract_keeps_propertyType _ _ h]

theorem chatTurn_keeps_city (f : String → List String) (u : String) (s : Session)
    (h : truthy s.requirements.city = true) :
    (chatTurn f u s).1.requirements.city = s.requirements.city := by
  rw [chatTurn_requirements, (applyConfirmationLogic_slots (lowerChars u.data) s.requirements (extractRequirements u s.requirements)).2.1,
      extract_keeps_city _ _ h]

theorem chatTurn_keeps_bhk (f : String → List String) (u : String) (s : Session)
    (h : truthy s.requirements.bhk = true) :
    (chatTurn f u s).1.requirements.bhk = s.requirements.bhk := by
  rw [chatTurn_requirements, (applyConfirmationLogic_slots (lowerChars u.data) s.requirements (extractRequirements u s.requirements)).2.2.1,
      extract_keeps_bhk _ _ h]

theorem chatTurn_keeps_budget (f : String → List String) (u : String) (s : Session)
    (h : truthy s.requirements.budget = true) :
    (chatTurn f u s).1.requirements.budget = s.requirements.budget := by
  rw [chatTurn_requirements, (applyConfirmationLogic_slots (lowerChars u.data) s.requirements (extractRequirements u s.requirements)).2.2.2.1,
      extract_keeps_budget _ _ h]

theorem pushHistory_eq_drop (h : List HistEntry) (e : HistEntry) :
    pushHistory h e = (h ++ [e]).drop ((h ++ [e]).length - 10) := by
  unfold pushHistory
  dsimp only
  split
  · rfl
  · rename_i hle
    rw [Nat.sub_eq_zero_of_le (by omega), List.drop_zero]

theorem foldl_pushHistory_drop (es : List HistEntry) :
    ∀ (h : List HistEntry), h.length ≤ 10 →
      List.foldl pushHistory h es = (h ++ es).drop ((h ++ es).length - 10) := by
  induction es with
  | nil =>
    intro h hle
    simp [Nat.sub_eq_zero_of_le hle]
  | cons e es ih =>
    intro h hle
    rw [List.foldl_cons, pushHistory_eq_drop]
    have hk : (h ++ [e]).length - 10 ≤ (h ++ [e]).length := Nat.sub_le _ _
    have hlen : ((h ++ [e]).drop ((h ++ [e]).length - 10)).length ≤ 10 := by
      rw [List.length_drop]
      omega
    rw [ih _ hlen, ← List.drop_append_of_le_length hk, List.drop_drop,
        List.append_assoc, List.singleton_append]
    congr 1
    simp [List.length_drop, List.length_append]
    omega

/-- C5: across any sequence of `/chat` turns on one session, once any of
propertyType, city, bhk or budget is set it never changes value again (the
revision cues reset only the confirmation flags, and extraction never
overwrites these four slots), for every search collaborator and every
utterance sequence. -/
theorem chat_slots_never_change (f : String → List String) (us : List String) (s : Session) :
    (truthy s.requirements.propertyType = true →
      (us.foldl (fun acc u => (chatTurn f u acc).1) s).requirements.propertyType
        = s.requirements.propertyType) ∧
    (truthy s.requirements.city = true →
      (us.foldl (fun acc u => (chatTurn f u acc).1) s).requirements.city
        = s.requirements.city) ∧
    (truthy s.requirements.bhk = true →
      (us.foldl (fun acc u => (chatTurn f u acc).1) s).requirements.bhk
        = s.requirements.bhk) ∧
    (truthy s.requirements.budget = true →
      (us.foldl (fun acc u => (chatTurn f u acc).1) s).requirements.budget
        = s.requirements.budget) := by
  induction us generalizing s with
  | nil => exact ⟨fun _ => rfl, fun _ => rfl, fun _ => rfl, fun _ => rfl⟩
  | cons u us ih =>
    refine ⟨fun h => ?_, fun h => ?_, fun h => ?_, fun h => ?_⟩ <;>
      simp only [List.foldl_cons]
    · have h1 := chatTurn_keeps_propertyType f u s h
      rw [(ih (chatTurn f u s).1).1 (by rw [h1]; exact h), h1]
    · have h1 := chatTurn_keeps_city f u s h
      rw [(ih (chatTurn f u s).1).2.1 (by rw [h1]; exact h), h1]
    · have h1 := chatTurn_keeps_bhk f u s h
      rw [(ih (chatTurn f u s).1).2.2.1 (by rw [h1]; exact h), h1]
    · have h1 := chatTurn_keeps_budget f u s h
      rw [(ih (chatTurn f u s).1).2.2.2 (by rw [h1]; exact h), h1]

/-- C1: `shouldSearchProperties(r)` is true if and only if propertyType,
city and bhk are all set in `r` and `r.confirmed == true`; in particular a
record with the three slots set and `confirmed = false` never searches,
regardless of budget, locality or `waitingForConfirmation`. -/
theorem shouldSearchProperties_complete_and_confirmed (r : Requirements) :
    (shouldSearchProperties r = true ↔
      (hasCompleteRequirements r = true ∧ r.confirmed = true)) ∧
    (hasCompleteRequirements r = true → r.confirmed = false →
      shouldSearchProperties r = false) := by
  constructor
  · simp [shouldSearchProperties, hasCompleteRequirements, Bool.and_eq_true, and_assoc]
  · intro _ h
    simp [shouldSearchProperties, h]

/-- C2 counterexample: from `{propertyType: buy, city: Pune, bhk: 2BHK,
waitingForConfirmation: true}`, the exemplar utterance mentioning Mumbai
does not change the city (extraction never overwrites a set city), the
change-detection block therefore detects nothing, and
`waitingForConfirmation` is still true — not false — after the
change-detection step. -/
theorem extractRequirements_city_revision_counterexample :
    (extractRequirements "Mumbai" c2start).city = some "Pune" ∧
    hasNewRequirements c2start c2reqMumbai = false ∧
    (applyChangeDetection c2start c2reqMumbai).waitingForConfirmation = true ∧
    (applyChangeDetection c2start c2reqMumbai).confirmed = false := by
  refine ⟨rfl, rfl, rfl, rfl⟩

/-- C2 amended: starting from `{propertyType: buy, city: Pune, bhk: 2BHK,
waitingForConfirmation: true}`, an utterance mentioning Mumbai leaves
city = Pune and triggers no change-detection reset (the full turn ends with
`confirmed = false`, `waitingForConfirmation = true`).  An utterance
changing a slot that still can change — here "near Andheri", which
overwrites locality — does trigger the reset: the change-detection step
sets `confirmed = false` and `waitingForConfirmation = false`, and the
immediately following completeness re-check sets
`waitingForConfirmation = true` again. -/
theorem revision_reset_via_changeable_slot :
    ((chatTurn noSearchResults "Mumbai" { requirements := c2start }).1.requirements.city
      = some "Pune" ∧
     (chatTurn noSearchResults "Mumbai" { requirements := c2start }).1.requirements.waitingForConfirmation
      = true ∧
     (chatTurn noSearchResults "Mumbai" { requirements := c2start }).1.requirements.confirmed
      = false) ∧
    (hasNewRequirements c2start c2reqNear = true ∧
     hasCompleteRequirements
       { c2reqNear with confirmed := false, waitingForConfirmation := false } = true ∧
     applyChangeDetection c2start c2reqNear =
       { c2reqNear with confirmed := false, waitingForConfirmation := true }) := by
  refine ⟨⟨rfl, rfl, rfl⟩, ⟨rfl, rfl, rfl⟩⟩

/-- C3 counterexample: the locality slot is not first-write-wins — with
locality already "Andheri", the utterance "near Dadar" matches the
unguarded `/near.*?([a-zA-Z\s]+)/i` pattern and extraction overwrites
locality with "Dadar". -/
theorem extractRequirements_locality_overwrite_counterexample :
    c3start.locality = some "Andheri" ∧
    (extractRequirements "near Dadar" c3start).locality = some "Dadar" := by
  refine ⟨rfl, rfl⟩

/-- C3 amended: extraction is a total function and is first-write-wins for
propertyType, budget, city and bhk (a set slot keeps its exact value for
every utterance); the locality slot alone can be overwritten, by the
unguarded locality/area/near patterns — when neither those patterns nor the
compound location pattern match, locality too is left untouched. -/
theorem extractRequirements_first_write_wins_per_slot (u : String) (r : Requirements) :
    (truthy r.propertyType = true →
      (extractRequirements u r).propertyType = r.propertyType) ∧
    (truthy r.budget = true → (extractRequirements u r).budget = r.budget) ∧
    (truthy r.city = true → (extractRequirements u r).city = r.city) ∧
    (truthy r.bhk = true → (extractRequirements u r).bhk = r.bhk) ∧
    ((locFirst u.data = none ∧ matchKwCapture ("locality".data) u.data = none ∧
      matchKwCapture ("area".data) u.data = none ∧
      matchKwCapture ("near".data) u.data = none) →
      (extractRequirements u r).locality = r.locality) := by
  refine ⟨extract_keeps_propertyType u r, extract_keeps_budget u r, extract_keeps_city u r,
    extract_keeps_bhk u r,
    fun h => extract_keeps_locality_of_no_match u r h.1 h.2.1 h.2.2.1 h.2.2.2⟩

/-- C4 counterexample: after "I want to buy", "Mumbai", "2BHK" the
requirements are complete and awaiting confirmation, but the deterministic
(fallback) reply of that turn is the budget prompt — the responder drills
into the still-missing budget slot before its confirmation branch — and
asks for no confirmation. -/
theorem chat_complete_turn_reply_counterexample :
    c4turn3.2.replyText = budgetPrompt ∧
    containsSub (lowerChars budgetPrompt.data) ("confirm".data) = false ∧
    containsSub (lowerChars budgetPrompt.data) ("should i search".data) = false := by
  refine ⟨rfl, rfl, rfl⟩

/-- C4 amended: "I want to buy", then "Mumbai", then "2BHK" on a fresh
session make the requirements complete with
`waitingForConfirmation = true`, the turn's (deterministic fallback) reply
being the budget prompt rather than a confirmation request; the next
utterance "yes" sets `confirmed = true` and
`waitingForConfirmation = false`, and the external search is invoked
exactly once in that turn — and in the whole scenario — with the query
"buy 2BHK Mumbai site:housing.com" (property type, bhk, locality, city,
budget concatenated in fixed order, unset slots omitted, plus the
site-restriction suffix). -/
theorem chat_end_to_end_scenario :
    hasCompleteRequirements c4turn3.1.requirements = true ∧
    c4turn3.1.requirements.waitingForConfirmation = true ∧
    c4turn3.2.replyText = budgetPrompt ∧
    c4turn1.2.searchPerformed = false ∧
    c4turn2.2.searchPerformed = false ∧
    c4turn3.2.searchPerformed = false ∧
    c4turn4.1.requirements.confirmed = true ∧
    c4turn4.1.requirements.waitingForConfirmation = false ∧
    c4turn4.2.searchPerformed = true ∧
    c4turn4.2.searchQueries = ["buy 2BHK Mumbai site:housing.com"] ∧
    c4turn4.1.propertySearchHistory = [("buy 2BHK Mumbai site:housing.com", [])] := by
  refine ⟨rfl, rfl, rfl, rfl, rfl, rfl, rfl, rfl, rfl, rfl, rfl⟩

/-- C6: budget extraction applies its ordered pattern list first-match-wins
and normalizes to a canonical string — "around 85 lakh" yields "85 Lakh",
"60k rent" yields "60K", and a generic numeric mention matching only the
"budget N" / "around N" patterns defaults to Lakh. -/
theorem extractRequirements_budget_normalization :
    (extractRequirements "around 85 lakh" {}).budget = some "85 Lakh" ∧
    (extractRequirements "60k rent" {}).budget = some "60K" ∧
    (extractRequirements "my budget is 50" {}).budget = some "50 Lakh" ∧
    (extractRequirements "around 70" {}).budget = some "70 Lakh" := by
  refine ⟨rfl, rfl, rfl, rfl⟩

/-- C7: extracting "Looking for 2BHK in Lajpat Nagar Delhi" into an empty
record sets city = "Delhi", locality = "Lajpat Nagar" and bhk = "2BHK" (the
compound locality-city pattern, not the plain substring scan, fires). -/
theorem extractRequirements_city_precedence :
    (extractRequirements "Looking for 2BHK in Lajpat Nagar Delhi" {}).city = some "Delhi" ∧
    (extractRequirements "Looking for 2BHK in Lajpat Nagar Delhi" {}).locality
      = some "Lajpat Nagar" ∧
    (extractRequirements "Looking for 2BHK in Lajpat Nagar Delhi" {}).bhk = some "2BHK" := by
  refine ⟨rfl, rfl, rfl⟩

/-- C8: after any sequence of appends starting from a fresh history, the
stored conversation history never exceeds 10 entries, and it equals the
suffix of the appended entries with the oldest dropped first (FIFO, order
preserved). -/
theorem conversationHistory_bound_fifo (es : List HistEntry) :
    (List.foldl pushHistory [] es).length ≤ 10 ∧
    List.foldl pushHistory [] es = es.drop (es.length - 10) := by
  have h := foldl_pushHistory_drop es [] (by simp)
  rw [List.nil_append] at h
  refine ⟨?_, h⟩
  rw [h, List.length_drop]
  omega

/-- C9: a `/chat` or `/sales-chat` request whose session id or utterance is
missing (or empty) is rejected with status 400 and the session store is
returned exactly as it was — no session state is mutated. -/
theorem malformed_request_rejected_without_mutation (f : String → List String)
    (sid text : Option String) (store : String → Option Session)
    (p : PropertyInfo) (c : CustomerInfo)
    (h : (falsyField sid || falsyField text) = true) :
    chatEndpoint f sid text store = ({ status := 400, body := none }, store) ∧
    salesChatEndpoint sid text p c store = ({ status := 400, body := none }, store) := by
  constructor
  · unfold chatEndpoint
    rw [if_pos h]
  · unfold salesChatEndpoint
    rw [if_pos h]

/-- C9 witness: a request with a session id but no utterance is rejected
with 400 and an unchanged store. -/
theorem malformed_request_rejected_without_mutation_witness :
    chatEndpoint noSearchResults (some "s1") none (fun _ => none) =
      ({ status := 400, body := none }, fun _ => none) ∧
    salesChatEndpoint (some "s1") none {} {} (fun _ => none) =
      ({ status := 400, body := none }, fun _ => none) :=
  malformed_request_rejected_without_mutation noSearchResults (some "s1") none
    (fun _ => none) {} {} (by decide)

/-- C10: `shouldEndCall` is true exactly when the assistant reply contains,
case-insensitively, one of the fixed terminal phrases; in particular the
closing reply "I completely understand. Thank you for taking the time to
speak with me today. … Have a wonderful day!" ends the call, and the sales
fallback's not-interested branch returns that reply with
`callEnded = true`. -/
theorem shouldEndCall_terminal_phrase_scan :
    (∀ reply : String, shouldEndCall reply = true ↔
      ∃ ind ∈ endIndicators, containsSub (lowerChars reply.data) ind.data = true) ∧
    shouldEndCall terminalSalesReply = true ∧
    (getSalesFallback "already bought a flat" salesIntroHistory {} {}).callEnded = true ∧
    (getSalesFallback "already bought a flat" salesIntroHistory {} {}).response
      = terminalSalesReply := by
  refine ⟨?_, rfl, rfl, rfl⟩
  intro reply
  simp [shouldEndCall, List.any_eq_true]

end VoiceAgent
